import Mathlib

/-!
Shallow embedding of the read-reconciliation logic of the
terraform-provider-repoflow data sources
(`internal/provider/workspace_data_source.go`): the `WorkspaceDataSource.Read`
and `RepositoryDataSource.Read` handlers, their data model, and the diagnostics
they emit.  Terraform attribute values (`types.String`, `types.Int64`,
`types.Bool`, `types.List`) are modelled as `Option` values, where `none` is
the framework's null value; the API client is modelled as a pair of functions
returning `Except String` (the `error` result carries the error text).
-/

namespace Repoflow

/-- Upstream `repoflow.Workspace` record: the fields the provider reads. -/
structure Workspace where
  Id : String
  Name : String
deriving DecidableEq

/-- An element of `repoflow.Repository.ChildRepositories`: the provider only
reads its `Id`. -/
structure ChildRepository where
  Id : String
deriving DecidableEq

/-- Upstream `repoflow.Repository` record: the fields the provider reads.
Go pointer fields (`*string`, `*int`) are `Option`s; `nil` is `none`. -/
structure Repository where
  Id : String
  Name : String
  Status : String
  PackageType : String
  RepositoryType : String
  RemoteRepositoryUrl : Option String
  IsRemoteCacheEnabled : Bool
  FileCacheTimeTillRevalidation : Option Int
  MetadataCacheTimeTillRevalidation : Option Int
  UploadLocalRepositoryId : Option String
  ChildRepositories : Option (List ChildRepository)
deriving DecidableEq

/-- The `repoflow.Client` collaborator, reduced to the two calls the readers
make.  An `Except.error` result is the non-nil Go `error` with its message. -/
structure Client where
  getWorkspace : String → Except String Workspace
  getRepository : String → String → Except String Repository

/-- `types.String.ValueString()`: the known value, or `""` on a null value. -/
def valueString (o : Option String) : String := o.getD ""

/-- `WorkspaceResourceModel` as used by `WorkspaceDataSource.Read`.
Modelled from the spec: the struct is declared in the resource file, which is
not among the supplied sources; per the spec a workspace is `{ Id, Name }`,
matching the two attributes of the workspace data-source schema. -/
structure WorkspaceResourceModel where
  Name : Option String
  Id : Option String
deriving DecidableEq

/-- `RepositoryDataSourceModel`: one `Option` field per schema attribute. -/
structure RepositoryDataSourceModel where
  Name : Option String
  Id : Option String
  WorkspaceId : Option String
  PackageType : Option String
  RepositoryType : Option String
  RepositoryId : Option String
  RemoteRepositoryUrl : Option String
  RemoteCacheEnabled : Option Bool
  FileCacheTimeTillRevalidation : Option Int
  MetadataCacheTimeTillRevalidation : Option Int
  ChildRepositoryIds : Option (List String)
  UploadLocalRepositoryId : Option String
  Status : Option String
deriving DecidableEq

/-- Result of a read: the accumulated error diagnostics (each entry one
error-severity message) and the state record, `none` when `resp.State.Set`
was never reached. -/
structure WorkspaceReadResponse where
  diagnostics : List String
  state : Option WorkspaceResourceModel
deriving DecidableEq

/-- Result of a repository read, as `WorkspaceReadResponse`. -/
structure RepositoryReadResponse where
  diagnostics : List String
  state : Option RepositoryDataSourceModel
deriving DecidableEq

/-- `WorkspaceDataSource.Read` (lines 73-104): look the workspace up by the
configured name; on error add a diagnostic and return, otherwise copy `Id` and
`Name` from the fetched record and write the state.  `resp.State.Set` is
modelled as always succeeding. -/
def WorkspaceRead (c : Client) (config : WorkspaceResourceModel) :
    WorkspaceReadResponse :=
  let workspace := valueString config.Name
  match c.getWorkspace workspace with
  | .error err =>
      { diagnostics := ["Unable to get workspace, got error: " ++ err]
        state := none }
  | .ok ws =>
      { diagnostics := []
        state := some { config with Id := some ws.Id, Name := some ws.Name } }

/-- Modelled from the spec: `factory.IntPtrToInt64Ptr` lives in
`internal/factory`, which is not among the supplied sources; the spec calls it
a lossless optional-integer widening (`*int` to `*int64`): nil maps to nil and
a present value maps to the same value. -/
def IntPtrToInt64Ptr (p : Option Int) : Option Int :=
  p.map (fun v => v)

/-- The workspace-lookup error message of `RepositoryDataSource.Read`
(line 250), with the typo of the source and the interpolated identifier. -/
def wsErrMsg (workspaceId err : String) : String :=
  "Unable to get worksapce " ++ workspaceId ++ ", got error: " ++ err

/-- The repository-lookup error message of `RepositoryDataSource.Read`
(lines 258-260). -/
def repoErrMsg (repository workspaceId err : String) : String :=
  "Unable to read repository " ++ repository ++ " on workspaceId " ++
    workspaceId ++ ", got error: " ++ err

/-- Step 1 of `RepositoryDataSource.Read` (lines 248-253): resolve the
configured workspace reference.  `var workspaceId string` starts as `""`; on
error the diagnostic interpolates that still-empty local (not the configured
reference) and execution continues with `workspaceId = ""`; on success
`workspaceId` becomes the fetched `Id`.  Returns the resolved id and the
diagnostics added by this step. -/
def resolveWorkspace (c : Client) (workspace : String) :
    String × List String :=
  match c.getWorkspace workspace with
  | .error err => ("", [wsErrMsg "" err])
  | .ok ws => (ws.Id, [])

/-- Lines 264-290: the unconditional scalar-field mapping from the fetched
repository record into the model, plus the two `RepositoryType != ""` guards
(lines 274-279): each guard is rendered as a conditional field value, leaving
the config's value (null for a computed attribute) in place when the guard
fails.  `ChildRepositoryIds` is untouched here (lines 293-307 handle it). -/
def mapRepositoryScalar (config : RepositoryDataSourceModel)
    (workspaceId : String) (rp : Repository) : RepositoryDataSourceModel :=
  { config with
    Id := some (String.intercalate "/" [workspaceId, rp.Id])
    RepositoryId := some rp.Id
    WorkspaceId := some workspaceId
    Name := some rp.Name
    Status := some rp.Status
    PackageType :=
      if rp.RepositoryType ≠ "" then some rp.PackageType
      else config.PackageType
    RepositoryType :=
      if rp.RepositoryType ≠ "" then some rp.RepositoryType
      else config.RepositoryType
    RemoteRepositoryUrl := rp.RemoteRepositoryUrl
    RemoteCacheEnabled := some rp.IsRemoteCacheEnabled
    FileCacheTimeTillRevalidation :=
      IntPtrToInt64Ptr rp.FileCacheTimeTillRevalidation
    MetadataCacheTimeTillRevalidation :=
      IntPtrToInt64Ptr rp.MetadataCacheTimeTillRevalidation
    UploadLocalRepositoryId := rp.UploadLocalRepositoryId }

/-- The behaviour of `types.ListValueFrom` on a `[]string` with element type
`types.StringType`: it succeeds and keeps the elements.  `RepositoryRead`
abstracts over this conversion so that its failure path (lines 301-305) can be
stated; this value instantiates the abstraction with the actual behaviour. -/
def listValueFromString (ids : List String) : Except String (List String) :=
  .ok ids

/-- `RepositoryDataSource.Read` (lines 235-319).  `lvf` is the list
conversion `types.ListValueFrom` (its `Except.error` is the error diagnostic
it appends).  After a failed conversion, and after a successful one when an
earlier step already added an error, `resp.Diagnostics.HasError()` at line 303
is true and the read returns before `resp.State.Set`; a successful conversion
itself appends no diagnostics.  The final `resp.State.Set` is modelled as
always succeeding. -/
def RepositoryRead (lvf : List String → Except String (List String))
    (c : Client) (config : RepositoryDataSourceModel) :
    RepositoryReadResponse :=
  let workspace := valueString config.WorkspaceId
  let repository := valueString config.Name
  let resolved := resolveWorkspace c workspace
  let workspaceId := resolved.1
  let diags0 := resolved.2
  match c.getRepository workspaceId repository with
  | .error err =>
      { diagnostics := diags0 ++ [repoErrMsg repository workspaceId err]
        state := none }
  | .ok rp =>
      let data := mapRepositoryScalar config workspaceId rp
      match rp.ChildRepositories with
      | none =>
          { diagnostics := diags0
            state := some { data with ChildRepositoryIds := none } }
      | some children =>
          let ids := children.map (fun child => child.Id)
          match lvf ids with
          | .error lerr =>
              { diagnostics := diags0 ++ [lerr], state := none }
          | .ok listValue =>
              if diags0 = [] then
                { diagnostics := diags0
                  state :=
                    some { data with ChildRepositoryIds := some listValue } }
              else
                { diagnostics := diags0, state := none }

/-- Splitting a character list at its first `/`: everything before it, and
everything after it (the whole list and `[]` when there is no `/`). -/
def splitFirstSlashList : List Char → List Char × List Char
  | [] => ([], [])
  | c :: cs =>
      if c = '/' then ([], cs)
      else
        let p := splitFirstSlashList cs
        (c :: p.1, p.2)

/-- Splitting a string at its first `/` into the two components of a
composite state key. -/
def splitFirstSlash (s : String) : String × String :=
  ((splitFirstSlashList s.data).1.asString,
   (splitFirstSlashList s.data).2.asString)

example : splitFirstSlash "w-1/r-9" = ("w-1", "r-9") := by decide
example : splitFirstSlash "a/b/r" = ("a", "b/r") := by decide
example : String.intercalate "/" ["w-1", "r-9"] = "w-1/r-9" := by decide

/-! Concrete fixtures, following the worked scenario of the spec: workspace
`acme` resolves to `w-1`, repository `libs` to `r-9`. -/

/-- The workspace of the spec's worked scenario. -/
def wsA : Workspace := { Id := "w-1", Name := "acme" }

/-- The repository of the spec's worked scenario. -/
def rpA : Repository :=
  { Id := "r-9", Name := "libs", Status := "ready", PackageType := "npm"
    RepositoryType := "local", RemoteRepositoryUrl := none
    IsRemoteCacheEnabled := false, FileCacheTimeTillRevalidation := some 0
    MetadataCacheTimeTillRevalidation := none
    UploadLocalRepositoryId := none, ChildRepositories := none }

/-- A client on which both lookups succeed. -/
def okClient : Client :=
  { getWorkspace := fun _ => .ok wsA, getRepository := fun _ _ => .ok rpA }

/-- The configuration of the worked scenario: `name = "libs"`,
`workspace = "acme"`, every computed attribute null. -/
def configA : RepositoryDataSourceModel :=
  { Name := some "libs", Id := none, WorkspaceId := some "acme"
    PackageType := none, RepositoryType := none, RepositoryId := none
    RemoteRepositoryUrl := none, RemoteCacheEnabled := none
    FileCacheTimeTillRevalidation := none
    MetadataCacheTimeTillRevalidation := none, ChildRepositoryIds := none
    UploadLocalRepositoryId := none, Status := none }

/-- The state the worked scenario's read produces. -/
def stateA : RepositoryDataSourceModel :=
  { mapRepositoryScalar configA "w-1" rpA with ChildRepositoryIds := none }

/-- The worked scenario's repository with an empty `RepositoryType` and the
`PackageType` still `"npm"`. -/
def rpB : Repository := { rpA with RepositoryType := "" }

/-- A client returning `rpB`: probes the shared type-field guard. -/
def blankTypeClient : Client :=
  { getWorkspace := fun _ => .ok wsA, getRepository := fun _ _ => .ok rpB }

/-- The state read from `blankTypeClient`. -/
def stateB : RepositoryDataSourceModel :=
  { mapRepositoryScalar configA "w-1" rpB with ChildRepositoryIds := none }

/-- The worked scenario's repository with one child repository. -/
def rpChild : Repository :=
  { rpA with ChildRepositories := some [{ Id := "c-1" }] }

/-- A client whose workspace lookup fails while the repository lookup
succeeds on a record with a child list. -/
def wsFailClient : Client :=
  { getWorkspace := fun _ => .error "down"
    getRepository := fun _ _ => .ok rpChild }

/-- A client whose workspace lookup fails while the repository lookup
succeeds on a record with nil children. -/
def wsFailNilClient : Client :=
  { getWorkspace := fun _ => .error "down"
    getRepository := fun _ _ => .ok rpA }

/-- A client whose repository lookup fails. -/
def repoFailClient : Client :=
  { getWorkspace := fun _ => .ok wsA
    getRepository := fun _ _ => .error "boom" }

/-- A workspace whose id itself contains a `/`. -/
def wsSlash : Workspace := { Id := "a/b", Name := "acme" }

/-- A client resolving the workspace to the slash-carrying id `a/b`. -/
def slashClient : Client :=
  { getWorkspace := fun _ => .ok wsSlash, getRepository := fun _ _ => .ok rpA }

/-- The state read from `slashClient`. -/
def stateSlash : RepositoryDataSourceModel :=
  { mapRepositoryScalar configA "a/b" rpA with ChildRepositoryIds := none }

/-- A client on which both lookups succeed and the repository has one
child. -/
def childClient : Client :=
  { getWorkspace := fun _ => .ok wsA, getRepository := fun _ _ => .ok rpChild }

/-- The state read from `childClient`. -/
def stateChild : RepositoryDataSourceModel :=
  { mapRepositoryScalar configA "w-1" rpChild with
      ChildRepositoryIds := some ["c-1"] }

/-- A list conversion that always fails: exercises the abort path that
`types.ListValueFrom` diagnostics would trigger. -/
def failingListValueFrom (_ : List String) : Except String (List String) :=
  .error "conversion failed"

/-- A client whose workspace lookup fails with an error text that itself
mentions the requested workspace name. -/
def echoFailClient : Client :=
  { getWorkspace := fun _ => .error "workspace acme missing"
    getRepository := fun _ _ => .error "x" }

/-- A workspace data-source configuration: `name = "acme"`. -/
def wsOnlyConfig : WorkspaceResourceModel := { Name := some "acme", Id := none }

example : (RepositoryRead listValueFromString okClient configA).state
    = some stateA := rfl

/-! Forward evaluation lemmas for `RepositoryRead`, one per control-flow
outcome. -/

/-- Both lookups succeed and `ChildRepositories` is nil: no diagnostics, the
state holds the scalar mapping with the null child list. -/
theorem repositoryRead_ok_none
    (lvf : List String → Except String (List String)) (cl : Client)
    (config : RepositoryDataSourceModel) (ws : Workspace) (rp : Repository)
    (hws : cl.getWorkspace (valueString config.WorkspaceId) = .ok ws)
    (hrp : cl.getRepository ws.Id (valueString config.Name) = .ok rp)
    (hch : rp.ChildRepositories = none) :
    RepositoryRead lvf cl config =
      { diagnostics := []
        state := some { mapRepositoryScalar config ws.Id rp with
                          ChildRepositoryIds := none } } := by
  simp only [RepositoryRead, resolveWorkspace, hws, hrp, hch]

/-- Both lookups succeed, `ChildRepositories` is present and the list
conversion succeeds: no diagnostics, the state holds the converted list. -/
theorem repositoryRead_ok_some
    (lvf : List String → Except String (List String)) (cl : Client)
    (config : RepositoryDataSourceModel) (ws : Workspace) (rp : Repository)
    (children : List ChildRepository) (l : List String)
    (hws : cl.getWorkspace (valueString config.WorkspaceId) = .ok ws)
    (hrp : cl.getRepository ws.Id (valueString config.Name) = .ok rp)
    (hch : rp.ChildRepositories = some children)
    (hl : lvf (children.map (fun child => child.Id)) = .ok l) :
    RepositoryRead lvf cl config =
      { diagnostics := []
        state := some { mapRepositoryScalar config ws.Id rp with
                          ChildRepositoryIds := some l } } := by
  simp [RepositoryRead, resolveWorkspace, hws, hrp, hch, hl]

/-- The workspace lookup succeeds but the repository lookup fails: exactly
one diagnostic, no state. -/
theorem repositoryRead_rperr
    (lvf : List String → Except String (List String)) (cl : Client)
    (config : RepositoryDataSourceModel) (ws : Workspace) (err : String)
    (hws : cl.getWorkspace (valueString config.WorkspaceId) = .ok ws)
    (hrp : cl.getRepository ws.Id (valueString config.Name) = .error err) :
    RepositoryRead lvf cl config =
      { diagnostics := [repoErrMsg (valueString config.Name) ws.Id err]
        state := none } := by
  simp [RepositoryRead, resolveWorkspace, hws, hrp]

/-- The workspace lookup fails but the repository lookup, with the empty
workspace id, succeeds on a record with nil `ChildRepositories`: the read
runs to completion with the workspace error as its only diagnostic. -/
theorem repositoryRead_wserr_ok_none
    (lvf : List String → Except String (List String)) (cl : Client)
    (config : RepositoryDataSourceModel) (err : String) (rp : Repository)
    (hws : cl.getWorkspace (valueString config.WorkspaceId) = .error err)
    (hrp : cl.getRepository "" (valueString config.Name) = .ok rp)
    (hch : rp.ChildRepositories = none) :
    RepositoryRead lvf cl config =
      { diagnostics := [wsErrMsg "" err]
        state := some { mapRepositoryScalar config "" rp with
                          ChildRepositoryIds := none } } := by
  simp only [RepositoryRead, resolveWorkspace, hws, hrp, hch]

/-- Whatever the workspace lookup did, when the repository record carries
children and the list conversion fails, the read aborts without state and
with the conversion error appended to the diagnostics. -/
theorem repositoryRead_lvf_error
    (lvf : List String → Except String (List String)) (cl : Client)
    (config : RepositoryDataSourceModel) (rp : Repository)
    (children : List ChildRepository) (lerr : String)
    (hrp : cl.getRepository
        (resolveWorkspace cl (valueString config.WorkspaceId)).1
        (valueString config.Name) = .ok rp)
    (hch : rp.ChildRepositories = some children)
    (hl : lvf (children.map (fun child => child.Id)) = .error lerr) :
    RepositoryRead lvf cl config =
      { diagnostics :=
          (resolveWorkspace cl (valueString config.WorkspaceId)).2 ++ [lerr]
        state := none } := by
  simp [RepositoryRead, hrp, hch, hl]

/-- Splitting at the first `/` undoes prepending a slash-free prefix. -/
theorem splitFirstSlashList_append (w r : List Char) (hw : '/' ∉ w) :
    splitFirstSlashList (w ++ '/' :: r) = (w, r) := by
  induction w with
  | nil => simp [splitFirstSlashList]
  | cons c cs ih =>
      simp only [List.mem_cons, not_or] at hw
      simp [splitFirstSlashList, Ne.symm hw.1, ih hw.2]

/-- String version of `splitFirstSlashList_append`. -/
theorem splitFirstSlash_append (w r : String) (hw : '/' ∉ w.data) :
    splitFirstSlash (w ++ "/" ++ r) = (w, r) := by
  unfold splitFirstSlash
  have h : (w ++ "/" ++ r).data = w.data ++ '/' :: r.data := by
    simp [String.data_append]
  rw [h, splitFirstSlashList_append _ _ hw]
  rfl

/-- A successful workspace lookup makes `resolveWorkspace` return the fetched
id and no diagnostics. -/
theorem resolveWorkspace_ok (cl : Client) (w : String) (ws : Workspace)
    (h : cl.getWorkspace w = .ok ws) :
    resolveWorkspace cl w = (ws.Id, []) := by
  simp [resolveWorkspace, h]

/-- Inversion: when both lookups succeed, any state the read writes is the
scalar mapping, with some value in the child-id field. -/
theorem repositoryRead_state_some
    (lvf : List String → Except String (List String)) (cl : Client)
    (config : RepositoryDataSourceModel) (ws : Workspace) (rp : Repository)
    (s : RepositoryDataSourceModel)
    (hws : cl.getWorkspace (valueString config.WorkspaceId) = .ok ws)
    (hrp : cl.getRepository ws.Id (valueString config.Name) = .ok rp)
    (hs : (RepositoryRead lvf cl config).state = some s) :
    ∃ cids, s = { mapRepositoryScalar config ws.Id rp with
                    ChildRepositoryIds := cids } := by
  cases hch : rp.ChildRepositories with
  | none =>
      rw [repositoryRead_ok_none lvf cl config ws rp hws hrp hch] at hs
      exact ⟨none, (Option.some_inj.mp hs).symm⟩
  | some children =>
      cases hl : lvf (children.map (fun child => child.Id)) with
      | error lerr =>
          have hrp' : cl.getRepository
              (resolveWorkspace cl (valueString config.WorkspaceId)).1
              (valueString config.Name) = .ok rp := by
            rw [resolveWorkspace_ok cl _ ws hws]; exact hrp
          rw [repositoryRead_lvf_error lvf cl config rp children lerr
            hrp' hch hl] at hs
          cases hs
      | ok l =>
          rw [repositoryRead_ok_some lvf cl config ws rp children l
            hws hrp hch hl] at hs
          exact ⟨some l, (Option.some_inj.mp hs).symm⟩

/-- C1: in `RepositoryDataSource.Read`, a single `RepositoryType != ""` check
gates the writing of both `PackageType` and `RepositoryType`: when the fetched
`RepositoryType` is the empty string neither field is written (both stay null
as in the config, whatever the fetched `PackageType` is), and when it is
non-empty both are copied from the fetched record. -/
theorem C1_typeFields_sharedGuard
    (lvf : List String → Except String (List String)) (cl : Client)
    (config : RepositoryDataSourceModel) (ws : Workspace) (rp : Repository)
    (s : RepositoryDataSourceModel)
    (hws : cl.getWorkspace (valueString config.WorkspaceId) = .ok ws)
    (hrp : cl.getRepository ws.Id (valueString config.Name) = .ok rp)
    (hs : (RepositoryRead lvf cl config).state = some s)
    (hPT : config.PackageType = none) (hRT : config.RepositoryType = none) :
    (rp.RepositoryType = "" → s.PackageType = none ∧ s.RepositoryType = none) ∧
    (rp.RepositoryType ≠ "" → s.PackageType = some rp.PackageType ∧
      s.RepositoryType = some rp.RepositoryType) := by
  obtain ⟨cids, rfl⟩ :=
    repositoryRead_state_some lvf cl config ws rp s hws hrp hs
  constructor
  · intro h
    simp [mapRepositoryScalar, h, hPT, hRT]
  · intro h
    simp [mapRepositoryScalar, h]

/-- Witness for C1 at the worked scenario (non-empty branch) and at the same
scenario with `RepositoryType` blanked out and `PackageType` still `"npm"`
(empty branch). -/
theorem C1_typeFields_sharedGuard_witness :
    (stateA.PackageType = some "npm" ∧ stateA.RepositoryType = some "local") ∧
    (stateB.PackageType = none ∧ stateB.RepositoryType = none) := by
  constructor
  · exact (C1_typeFields_sharedGuard listValueFromString okClient configA
      wsA rpA stateA rfl rfl rfl rfl rfl).2 (by decide)
  · exact (C1_typeFields_sharedGuard listValueFromString blankTypeClient
      configA wsA rpB stateB rfl rfl rfl rfl rfl).1 rfl

/-- C2 counterexample: the workspace lookup fails, the repository lookup with
the empty workspace id succeeds (on a record carrying a child list), and yet
the read does NOT complete: the `HasError` check after the child-list
conversion sees the recorded workspace error and returns before the state
write, so no state is produced. -/
theorem C2_counterexample :
    wsFailClient.getWorkspace (valueString configA.WorkspaceId) =
      Except.error "down" ∧
    wsFailClient.getRepository "" (valueString configA.Name) =
      Except.ok rpChild ∧
    (RepositoryRead listValueFromString wsFailClient configA).state = none :=
  ⟨rfl, rfl, rfl⟩

/-- C2 (amended): when `GetWorkspace` fails the error is recorded as a
diagnostic and execution continues to `GetRepository` with the still-empty
workspace id; if that lookup succeeds and the fetched `ChildRepositories` is
nil, the read completes with composite key `"/" ++ repositoryId` and the
workspace error as its only diagnostic. -/
theorem C2_continuesAfterWorkspaceError
    (lvf : List String → Except String (List String)) (cl : Client)
    (config : RepositoryDataSourceModel) (err : String) (rp : Repository)
    (hws : cl.getWorkspace (valueString config.WorkspaceId) = .error err)
    (hrp : cl.getRepository "" (valueString config.Name) = .ok rp)
    (hch : rp.ChildRepositories = none) :
    RepositoryRead lvf cl config =
      { diagnostics := [wsErrMsg "" err]
        state := some { mapRepositoryScalar config "" rp with
                          ChildRepositoryIds := none } } ∧
    (mapRepositoryScalar config "" rp).Id = some ("/" ++ rp.Id) :=
  ⟨repositoryRead_wserr_ok_none lvf cl config err rp hws hrp hch, rfl⟩

/-- Witness for C2 (amended) on a failing workspace lookup and a child-free
repository record. -/
theorem C2_continuesAfterWorkspaceError_witness :
    RepositoryRead listValueFromString wsFailNilClient configA =
      { diagnostics := [wsErrMsg "" "down"]
        state := some { mapRepositoryScalar configA "" rpA with
                          ChildRepositoryIds := none } } ∧
    (mapRepositoryScalar configA "" rpA).Id = some ("/" ++ "r-9") :=
  C2_continuesAfterWorkspaceError listValueFromString wsFailNilClient configA
    "down" rpA rfl rfl rfl

/-- C3: after a successful workspace lookup, a failing `GetRepository` aborts
the read with no state and exactly one error diagnostic, whose message
contains the repository name and the workspace id. -/
theorem C3_repositoryLookupFatal
    (lvf : List String → Except String (List String)) (cl : Client)
    (config : RepositoryDataSourceModel) (ws : Workspace) (err : String)
    (hws : cl.getWorkspace (valueString config.WorkspaceId) = .ok ws)
    (hrp : cl.getRepository ws.Id (valueString config.Name) = .error err) :
    RepositoryRead lvf cl config =
      { diagnostics := [repoErrMsg (valueString config.Name) ws.Id err]
        state := none } ∧
    ∃ a b c2, repoErrMsg (valueString config.Name) ws.Id err =
      a ++ valueString config.Name ++ b ++ ws.Id ++ c2 := by
  refine ⟨repositoryRead_rperr lvf cl config ws err hws hrp,
    "Unable to read repository ", " on workspaceId ",
    ", got error: " ++ err, ?_⟩
  simp [repoErrMsg, String.append_assoc]

/-- Witness for C3 on a client whose repository lookup fails. -/
theorem C3_repositoryLookupFatal_witness :
    RepositoryRead listValueFromString repoFailClient configA =
      { diagnostics := [repoErrMsg "libs" "w-1" "boom"], state := none } :=
  (C3_repositoryLookupFatal listValueFromString repoFailClient configA
    wsA "boom" rfl rfl).1

/-- C4 counterexample: a successful read against a workspace whose id itself
contains a `/`: the output `Id` is still workspaceId ++ "/" ++ repositoryId,
but splitting that composite on its FIRST `/` does not recover the two
components. -/
theorem C4_counterexample :
    slashClient.getWorkspace (valueString configA.WorkspaceId) =
      Except.ok wsSlash ∧
    (RepositoryRead listValueFromString slashClient configA).state =
      some stateSlash ∧
    stateSlash.Id = some (wsSlash.Id ++ "/" ++ rpA.Id) ∧
    splitFirstSlash (wsSlash.Id ++ "/" ++ rpA.Id) ≠ (wsSlash.Id, rpA.Id) :=
  ⟨rfl, rfl, rfl, by decide⟩

/-- C4 (amended): for every successful read the output `Id` is the resolved
workspace id, `/`, and the fetched repository id; splitting that composite on
its first `/` recovers the two components whenever the workspace id contains
no `/` of its own. -/
theorem C4_compositeKey
    (lvf : List String → Except String (List String)) (cl : Client)
    (config : RepositoryDataSourceModel) (ws : Workspace) (rp : Repository)
    (s : RepositoryDataSourceModel)
    (hws : cl.getWorkspace (valueString config.WorkspaceId) = .ok ws)
    (hrp : cl.getRepository ws.Id (valueString config.Name) = .ok rp)
    (hs : (RepositoryRead lvf cl config).state = some s)
    (hsl : '/' ∉ ws.Id.data) :
    s.Id = some (ws.Id ++ "/" ++ rp.Id) ∧
    splitFirstSlash (ws.Id ++ "/" ++ rp.Id) = (ws.Id, rp.Id) := by
  obtain ⟨cids, rfl⟩ :=
    repositoryRead_state_some lvf cl config ws rp s hws hrp hs
  exact ⟨rfl, splitFirstSlash_append ws.Id rp.Id hsl⟩

/-- Witness for C4 (amended) at the worked scenario. -/
theorem C4_compositeKey_witness :
    stateA.Id = some ("w-1" ++ "/" ++ "r-9") ∧
    splitFirstSlash ("w-1" ++ "/" ++ "r-9") = ("w-1", "r-9") :=
  C4_compositeKey listValueFromString okClient configA wsA rpA stateA
    rfl rfl rfl (by decide)

/-- `IntPtrToInt64Ptr` is the identity on optional integers. -/
theorem IntPtrToInt64Ptr_eq (p : Option Int) : IntPtrToInt64Ptr p = p := by
  cases p <;> rfl

/-- C5: on a successful read, a nil `ChildRepositories` yields the null list
sentinel in the output (never the empty list), and a present child list of N
entries yields exactly the N child ids, in input order. -/
theorem C5_childIds (cl : Client) (config : RepositoryDataSourceModel)
    (ws : Workspace) (rp : Repository)
    (hws : cl.getWorkspace (valueString config.WorkspaceId) = .ok ws)
    (hrp : cl.getRepository ws.Id (valueString config.Name) = .ok rp) :
    (rp.ChildRepositories = none →
      ∃ s, (RepositoryRead listValueFromString cl config).state = some s ∧
        s.ChildRepositoryIds = none ∧ s.ChildRepositoryIds ≠ some []) ∧
    (∀ children, rp.ChildRepositories = some children →
      ∃ s, (RepositoryRead listValueFromString cl config).state = some s ∧
        s.ChildRepositoryIds = some (children.map (fun child => child.Id)) ∧
        (children.map (fun child => child.Id)).length = children.length) := by
  constructor
  · intro hch
    refine ⟨{ mapRepositoryScalar config ws.Id rp with
                ChildRepositoryIds := none }, ?_, rfl, by simp⟩
    rw [repositoryRead_ok_none listValueFromString cl config ws rp hws hrp hch]
  · intro children hch
    have hlvf : listValueFromString (children.map (fun child => child.Id)) =
        .ok (children.map (fun child => child.Id)) := rfl
    have h := repositoryRead_ok_some listValueFromString cl config ws rp
      children (children.map (fun child => child.Id)) hws hrp hch hlvf
    refine ⟨{ mapRepositoryScalar config ws.Id rp with
                ChildRepositoryIds :=
                  some (children.map (fun child => child.Id)) },
      ?_, rfl, by simp⟩
    rw [h]

/-- Witness for C5: the worked scenario (nil children) and the same scenario
with one child repository `c-1`. -/
theorem C5_childIds_witness :
    (∃ s, (RepositoryRead listValueFromString okClient configA).state =
        some s ∧ s.ChildRepositoryIds = none ∧
        s.ChildRepositoryIds ≠ some []) ∧
    (∃ s, (RepositoryRead listValueFromString childClient configA).state =
        some s ∧
      s.ChildRepositoryIds =
        some (([{ Id := "c-1" }] : List ChildRepository).map
          (fun child => child.Id)) ∧
      (([{ Id := "c-1" }] : List ChildRepository).map
          (fun child => child.Id)).length =
        ([{ Id := "c-1" }] : List ChildRepository).length) :=
  ⟨(C5_childIds okClient configA wsA rpA rfl rfl).1 rfl,
   (C5_childIds childClient configA wsA rpChild rfl rfl).2
     [{ Id := "c-1" }] rfl⟩

/-- C6: the workspace read succeeds and writes state exactly when
`GetWorkspace` succeeds; on success the output `Id` and `Name` are the
fetched fields unchanged and there are no diagnostics; on error there is one
error diagnostic and no state. -/
theorem C6_workspaceRead (cl : Client) (config : WorkspaceResourceModel) :
    (∀ ws, cl.getWorkspace (valueString config.Name) = .ok ws →
      WorkspaceRead cl config =
        { diagnostics := []
          state := some { Name := some ws.Name, Id := some ws.Id } }) ∧
    (∀ err, cl.getWorkspace (valueString config.Name) = .error err →
      WorkspaceRead cl config =
        { diagnostics := ["Unable to get workspace, got error: " ++ err]
          state := none }) ∧
    ((WorkspaceRead cl config).state.isSome ↔
      ∃ ws, cl.getWorkspace (valueString config.Name) = .ok ws) := by
  refine ⟨fun ws h => ?_, fun err h => ?_, ?_⟩
  · simp [WorkspaceRead, h]
  · simp [WorkspaceRead, h]
  · cases h : cl.getWorkspace (valueString config.Name) with
    | error e => simp [WorkspaceRead, h]
    | ok ws => simp [WorkspaceRead, h]

/-- Witness for C6 on the worked scenario's client. -/
theorem C6_workspaceRead_witness :
    WorkspaceRead okClient wsOnlyConfig =
      { diagnostics := []
        state := some { Name := some "acme", Id := some "w-1" } } :=
  (C6_workspaceRead okClient wsOnlyConfig).1 wsA rfl

/-- C7: on a successful read both optional cache fields pass through the
optional-integer widening losslessly: the output equals the fetched value,
absent maps to absent and a present value V (0 included) to present V. -/
theorem C7_cacheFieldsLossless
    (lvf : List String → Except String (List String)) (cl : Client)
    (config : RepositoryDataSourceModel) (ws : Workspace) (rp : Repository)
    (s : RepositoryDataSourceModel)
    (hws : cl.getWorkspace (valueString config.WorkspaceId) = .ok ws)
    (hrp : cl.getRepository ws.Id (valueString config.Name) = .ok rp)
    (hs : (RepositoryRead lvf cl config).state = some s) :
    s.FileCacheTimeTillRevalidation = rp.FileCacheTimeTillRevalidation ∧
    s.MetadataCacheTimeTillRevalidation =
      rp.MetadataCacheTimeTillRevalidation ∧
    (rp.FileCacheTimeTillRevalidation = none →
      s.FileCacheTimeTillRevalidation = none) ∧
    (∀ v : Int, rp.FileCacheTimeTillRevalidation = some v →
      s.FileCacheTimeTillRevalidation = some v) ∧
    (rp.MetadataCacheTimeTillRevalidation = none →
      s.MetadataCacheTimeTillRevalidation = none) ∧
    (∀ v : Int, rp.MetadataCacheTimeTillRevalidation = some v →
      s.MetadataCacheTimeTillRevalidation = some v) := by
  obtain ⟨cids, rfl⟩ :=
    repositoryRead_state_some lvf cl config ws rp s hws hrp hs
  have h1 : ({ mapRepositoryScalar config ws.Id rp with
      ChildRepositoryIds := cids }).FileCacheTimeTillRevalidation =
      rp.FileCacheTimeTillRevalidation := by
    simp [mapRepositoryScalar, IntPtrToInt64Ptr_eq]
  have h2 : ({ mapRepositoryScalar config ws.Id rp with
      ChildRepositoryIds := cids }).MetadataCacheTimeTillRevalidation =
      rp.MetadataCacheTimeTillRevalidation := by
    simp [mapRepositoryScalar, IntPtrToInt64Ptr_eq]
  exact ⟨h1, h2, fun h => h1.trans h, fun v h => h1.trans h,
    fun h => h2.trans h, fun v h => h2.trans h⟩

/-- Witness for C7 at the worked scenario: a present 0 stays present 0 and an
absent value stays absent. -/
theorem C7_cacheFieldsLossless_witness :
    stateA.FileCacheTimeTillRevalidation = some 0 ∧
    stateA.MetadataCacheTimeTillRevalidation = none := by
  have h := C7_cacheFieldsLossless listValueFromString okClient configA
    wsA rpA stateA rfl rfl rfl
  exact ⟨h.2.2.2.1 0 rfl, h.2.2.2.2.1 rfl⟩

/-- C8: on a successful read the optional strings `RemoteRepositoryUrl` and
`UploadLocalRepositoryId` pass through preserving absence: a nil upstream
pointer yields the null output value (not an empty string) and a present
pointer yields the pointed-to value. -/
theorem C8_optionalStringsPassthrough
    (lvf : List String → Except String (List String)) (cl : Client)
    (config : RepositoryDataSourceModel) (ws : Workspace) (rp : Repository)
    (s : RepositoryDataSourceModel)
    (hws : cl.getWorkspace (valueString config.WorkspaceId) = .ok ws)
    (hrp : cl.getRepository ws.Id (valueString config.Name) = .ok rp)
    (hs : (RepositoryRead lvf cl config).state = some s) :
    s.RemoteRepositoryUrl = rp.RemoteRepositoryUrl ∧
    s.UploadLocalRepositoryId = rp.UploadLocalRepositoryId ∧
    (rp.RemoteRepositoryUrl = none → s.RemoteRepositoryUrl = none) ∧
    (∀ v, rp.RemoteRepositoryUrl = some v → s.RemoteRepositoryUrl = some v) ∧
    (rp.UploadLocalRepositoryId = none →
      s.UploadLocalRepositoryId = none) ∧
    (∀ v, rp.UploadLocalRepositoryId = some v →
      s.UploadLocalRepositoryId = some v) := by
  obtain ⟨cids, rfl⟩ :=
    repositoryRead_state_some lvf cl config ws rp s hws hrp hs
  exact ⟨rfl, rfl, fun h => h, fun v h => h, fun h => h, fun v h => h⟩

/-- Witness for C8 at the worked scenario: both upstream pointers are nil and
both output values are null. -/
theorem C8_optionalStringsPassthrough_witness :
    stateA.RemoteRepositoryUrl = none ∧
    stateA.UploadLocalRepositoryId = none := by
  have h := C8_optionalStringsPassthrough listValueFromString okClient
    configA wsA rpA stateA rfl rfl rfl
  exact ⟨h.2.2.1 rfl, h.2.2.2.2.1 rfl⟩

/-- C9: when the child-id list conversion fails, the read aborts before the
state write: no state is persisted and the conversion error is appended to
the diagnostics. -/
theorem C9_listConversionAborts
    (lvf : List String → Except String (List String)) (cl : Client)
    (config : RepositoryDataSourceModel) (rp : Repository)
    (children : List ChildRepository) (lerr : String)
    (hrp : cl.getRepository
        (resolveWorkspace cl (valueString config.WorkspaceId)).1
        (valueString config.Name) = .ok rp)
    (hch : rp.ChildRepositories = some children)
    (hl : lvf (children.map (fun child => child.Id)) = .error lerr) :
    (RepositoryRead lvf cl config).state = none ∧
    (RepositoryRead lvf cl config).diagnostics =
      (resolveWorkspace cl (valueString config.WorkspaceId)).2 ++ [lerr] := by
  rw [repositoryRead_lvf_error lvf cl config rp children lerr hrp hch hl]
  exact ⟨rfl, rfl⟩

/-- Witness for C9: a failing list conversion on the one-child scenario. -/
theorem C9_listConversionAborts_witness :
    (RepositoryRead failingListValueFrom childClient configA).state = none :=
  (C9_listConversionAborts failingListValueFrom childClient configA rpChild
    [{ Id := "c-1" }] "conversion failed" rfl rfl rfl).1

/-- C10 counterexample: the configured workspace reference is `acme` and the
lookup fails with an error text that mentions it; the diagnostic therefore
DOES contain the requested workspace reference (through the client's error
text), refuting "never contains the requested workspace reference". -/
theorem C10_counterexample :
    configA.WorkspaceId = some "acme" ∧
    echoFailClient.getWorkspace "acme" =
      Except.error "workspace acme missing" ∧
    (RepositoryRead listValueFromString echoFailClient configA).diagnostics.head? =
      some ("Unable to get worksapce , got error: workspace " ++ "acme" ++
        " missing") :=
  ⟨rfl, rfl, rfl⟩

/-- C10 (amended): when `GetWorkspace` fails, the first diagnostic
interpolates the still-empty local `workspaceId` — its identifier slot is the
empty string, not the configured workspace reference — so the message is
exactly the fixed template followed by the client's error text, and the
requested reference can appear only through that error text. -/
theorem C10_diagnosticEmptyWorkspaceId
    (lvf : List String → Except String (List String)) (cl : Client)
    (config : RepositoryDataSourceModel) (err : String)
    (hws : cl.getWorkspace (valueString config.WorkspaceId) = .error err) :
    (RepositoryRead lvf cl config).diagnostics.head? =
      some (wsErrMsg "" err) ∧
    wsErrMsg "" err = "Unable to get worksapce , got error: " ++ err := by
  have hres : resolveWorkspace cl (valueString config.WorkspaceId) =
      ("", [wsErrMsg "" err]) := by
    simp [resolveWorkspace, hws]
  refine ⟨?_, rfl⟩
  simp only [RepositoryRead, hres]
  cases hrp : cl.getRepository "" (valueString config.Name) with
  | error e => simp
  | ok rp =>
      cases hch : rp.ChildRepositories with
      | none => simp [hch]
      | some children =>
          cases hl : lvf (children.map (fun child => child.Id)) with
          | error lerr => simp [hch, hl]
          | ok l => simp [hch, hl]

/-- Witness for C10 (amended) on a failing workspace lookup. -/
theorem C10_diagnosticEmptyWorkspaceId_witness :
    (RepositoryRead listValueFromString wsFailClient configA).diagnostics.head? =
      some (wsErrMsg "" "down") ∧
    wsErrMsg "" "down" = "Unable to get worksapce , got error: " ++ "down" :=
  C10_diagnosticEmptyWorkspaceId listValueFromString wsFailClient configA
    "down" rfl

end Repoflow
